import Mathlib

/-
Verification of the aquachain HTTP RPC admission pipeline (package rpc,
file http.go): client identity resolution (getIP), the IP allow-list gate,
the virtual-host gate, the CORS wiring, and the base server's request
validation (validateRequest / Server.ServeHTTP).

Go standard-library collaborators (net.ParseIP, net.SplitHostPort,
mime.ParseMediaType, strings.Split/TrimSpace/ToLower) are embedded
shallowly below as structurally recursive functions over character lists,
faithful to their documented behaviour on the inputs this pipeline feeds
them. The p2p/netutil package is not part of the sources; its three entry
points (IsLAN, IsSpecialNetwork, Netlist) are modelled from the spec, each
marked as such in its doc comment.
-/

/-- Model of Go strings.Split with a one-character separator, on character
lists: splitting the empty string yields one empty field. -/
def splitChar (sep : Char) : List Char → List (List Char)
  | [] => [[]]
  | c :: cs =>
      if c == sep then [] :: splitChar sep cs
      else
        match splitChar sep cs with
        | [] => [[c]]
        | h :: t => (c :: h) :: t

/-- Model of Go strings.Split with a one-character separator. -/
def splitStr (s : String) (sep : Char) : List String :=
  (splitChar sep s.data).map List.asString

/-- Model of Go strings.TrimSpace on character lists. -/
def trimChars (cs : List Char) : List Char :=
  ((cs.dropWhile Char.isWhitespace).reverse.dropWhile Char.isWhitespace).reverse

/-- Model of Go strings.TrimSpace. -/
def trimStr (s : String) : String := (trimChars s.data).asString

/-- ASCII lower-casing of one character. -/
def lowerChar (c : Char) : Char :=
  if 65 ≤ c.toNat && c.toNat ≤ 90 then Char.ofNat (c.toNat + 32) else c

/-- Model of Go strings.ToLower (hostnames and media types are ASCII). -/
def lowerStr (s : String) : String := (s.data.map lowerChar).asString

/-- The first occurrence of a double colon: the characters before it and
after it, if present. -/
def findDoubleColon : List Char → Option (List Char × List Char)
  | [] => none
  | [_] => none
  | c1 :: c2 :: rest =>
      if c1 == ':' && c2 == ':' then some ([], rest)
      else
        match findDoubleColon (c2 :: rest) with
        | some (l, r) => some (c1 :: l, r)
        | none => none

/-- A parsed IP address: IPv4 as four octets, IPv6 as eight 16-bit groups.
Models a non-nil Go net.IP as produced by net.ParseIP. -/
inductive IP where
  | v4 (a b c d : Nat)
  | v6 (gs : List Nat)
deriving DecidableEq, BEq, Repr

/-- Decimal field of an IPv4 address: 1-3 digits, value at most 255,
no leading zero (as in Go net.ParseIP). -/
def parseByte (s : String) : Option Nat :=
  let cs := s.data
  if cs.length = 0 || cs.length > 3 then none
  else if cs.any (fun c => !c.isDigit) then none
  else if cs.length > 1 && cs.headD ' ' == '0' then none
  else
    let n := cs.foldl (fun acc c => acc * 10 + (c.toNat - 48)) 0
    if n ≤ 255 then some n else none

/-- Model of the IPv4 branch of Go net.ParseIP: exactly four dot-separated
decimal fields. -/
def parseIPv4 (s : String) : Option IP :=
  match splitStr s '.' with
  | [a, b, c, d] => do
      let a2 ← parseByte a
      let b2 ← parseByte b
      let c2 ← parseByte c
      let d2 ← parseByte d
      pure (IP.v4 a2 b2 c2 d2)
  | _ => none

/-- Value of one hexadecimal digit. -/
def hexVal (c : Char) : Option Nat :=
  if c.isDigit then some (c.toNat - 48)
  else if 97 ≤ c.toNat && c.toNat ≤ 102 then some (c.toNat - 87)
  else if 65 ≤ c.toNat && c.toNat ≤ 70 then some (c.toNat - 55)
  else none

/-- One 16-bit group of an IPv6 address: 1-4 hex digits. -/
def parseHexGroup (s : String) : Option Nat :=
  let cs := s.data
  if cs.length = 0 || cs.length > 4 then none
  else cs.foldl (fun acc c => do
    let a ← acc
    let v ← hexVal c
    pure (a * 16 + v)) (some 0)

/-- Colon-separated groups of an IPv6 address; the last group may be an
embedded IPv4 literal contributing two 16-bit groups. -/
def parseGroupList : List String → Option (List Nat)
  | [] => some []
  | [p] =>
      match parseHexGroup p with
      | some g => some [g]
      | none =>
          match parseIPv4 p with
          | some (IP.v4 a b c d) => some [a * 256 + b, c * 256 + d]
          | _ => none
  | p :: rest => do
      let g ← parseHexGroup p
      let gs ← parseGroupList rest
      pure (g :: gs)

/-- Model of the IPv6 branch of Go net.ParseIP: hex groups with at most one
double-colon elision. -/
def parseIPv6 (s : String) : Option IP :=
  match findDoubleColon s.data with
  | none => do
      let gs ← parseGroupList (splitStr s ':')
      if gs.length = 8 then pure (IP.v6 gs) else none
  | some (l, r) =>
      if (findDoubleColon r).isSome then none
      else do
        let ls ← if l.isEmpty then pure []
          else parseGroupList ((splitChar ':' l).map List.asString)
        let rs ← if r.isEmpty then pure []
          else parseGroupList ((splitChar ':' r).map List.asString)
        if ls.length + rs.length ≤ 7 then
          pure (IP.v6 (ls ++ List.replicate (8 - ls.length - rs.length) 0 ++ rs))
        else none

/-- Model of Go net.ParseIP: the first separator character decides between
the IPv4 and IPv6 forms; nil (no address) is None. -/
def parseIP (s : String) : Option IP :=
  match s.data.find? (fun c => c == '.' || c == ':') with
  | some c => if c == '.' then parseIPv4 s else parseIPv6 s
  | none => none

/-- Model of Go net.IP.IsUnspecified. -/
def IP.isUnspecified : IP → Bool
  | .v4 a b c d => a == 0 && b == 0 && c == 0 && d == 0
  | .v6 gs => gs.all (· == 0)

/-- Model of Go net.IP.IsLoopback. -/
def IP.isLoopback : IP → Bool
  | .v4 a _ _ _ => a == 127
  | .v6 gs => gs == [0, 0, 0, 0, 0, 0, 0, 1]

/-- Model of Go net.IP.IsMulticast. -/
def IP.isMulticast : IP → Bool
  | .v4 a _ _ _ => decide (224 ≤ a) && decide (a ≤ 239)
  | .v6 gs => gs.headD 0 / 256 == 255

/-- Model of Go net.IP.IsLinkLocalUnicast (169.254.0.0/16, fe80::/10). -/
def IP.isLinkLocalUnicast : IP → Bool
  | .v4 a b _ _ => a == 169 && b == 254
  | .v6 gs => gs.headD 0 / 64 == 1018

/-- Model of Go net.IP.IsGlobalUnicast. -/
def IP.isGlobalUnicast (ip : IP) : Bool :=
  !(ip == IP.v4 255 255 255 255) && !ip.isUnspecified && !ip.isLoopback
    && !ip.isMulticast && !ip.isLinkLocalUnicast

/-- Modelled from the spec: netutil.IsLAN is not under src/. The spec
describes it as holding of a "private/LAN address": the RFC 1918 private
ranges, loopback, link-local and the zero network. -/
def netutil_IsLAN : IP → Bool
  | .v4 a b _ _ =>
      a == 0 || a == 10 || a == 127
        || (a == 172 && decide (16 ≤ b) && decide (b ≤ 31))
        || (a == 192 && b == 168) || (a == 169 && b == 254)
  | .v6 gs =>
      gs == [0, 0, 0, 0, 0, 0, 0, 1] || gs.headD 0 / 64 == 1018
        || gs.headD 0 / 512 == 126

/-- Modelled from the spec: netutil.IsSpecialNetwork is not under src/. The
spec describes it as holding of a "reserved/special-use network" and fixes,
through its forwarded-for test vector, that 203.0.113.7 does not fall in it;
we model carrier-grade NAT (100.64.0.0/10), IETF protocol assignments
(192.0.0.0/24), benchmarking (198.18.0.0/15), class E (240.0.0.0/4 with the
broadcast address) and the IPv6 documentation range. -/
def netutil_IsSpecialNetwork : IP → Bool
  | .v4 a b c _ =>
      (a == 100 && decide (64 ≤ b) && decide (b ≤ 127))
        || (a == 192 && b == 0 && c == 0)
        || (a == 198 && (b == 18 || b == 19))
        || decide (240 ≤ a)
  | .v6 gs => gs.headD 0 == 8193 && gs.getD 1 0 == 3512

/-- One IP/CIDR pattern of the allow-list. -/
structure Cidr where
  base : IP
  bits : Nat
deriving DecidableEq, Repr

/-- The 32-bit value of an IPv4 address. -/
def v4ToNat (a b c d : Nat) : Nat := ((a * 256 + b) * 256 + c) * 256 + d

/-- The 128-bit value of an IPv6 group list. -/
def v6ToNat (gs : List Nat) : Nat := gs.foldl (fun acc g => acc * 65536 + g) 0

/-- Membership of an address in a CIDR pattern: the leading bits agree. -/
def cidrContains (cd : Cidr) (ip : IP) : Bool :=
  match cd.base, ip with
  | .v4 a b c d, .v4 e f g h =>
      v4ToNat a b c d / 2 ^ (32 - cd.bits) == v4ToNat e f g h / 2 ^ (32 - cd.bits)
  | .v6 gs, .v6 hs =>
      v6ToNat gs / 2 ^ (128 - cd.bits) == v6ToNat hs / 2 ^ (128 - cd.bits)
  | _, _ => false

/-- Nonempty string of decimal digits. -/
def parseDecNat (s : String) : Option Nat :=
  let cs := s.data
  if cs.length = 0 || cs.any (fun c => !c.isDigit) then none
  else some (cs.foldl (fun acc c => acc * 10 + (c.toNat - 48)) 0)

/-- Modelled from the spec: parsing of one allow-list configuration string
(an IP/CIDR pattern) for netutil.Netlist.Add, which is not under src/. -/
def parseCIDR (s : String) : Option Cidr :=
  match splitStr s '/' with
  | [ipstr, bitsstr] => do
      let ip ← parseIP ipstr
      let bits ← parseDecNat bitsstr
      match ip with
      | .v4 _ _ _ _ => if bits ≤ 32 then some ⟨ip, bits⟩ else none
      | .v6 _ => if bits ≤ 128 then some ⟨ip, bits⟩ else none
  | _ => none

/-- Modelled from the spec: netutil.Netlist is not under src/; the spec
describes it as "an ordered set of IP/CIDR patterns, built once from
configuration strings". -/
def mkNetlist (masks : List String) : List Cidr :=
  masks.foldl (fun acc m =>
    match parseCIDR m with
    | some cd => acc ++ [cd]
    | none => acc) []

/-- Modelled from the spec: netutil.Netlist.Contains is not under src/; the
spec describes the single query "does address A match any pattern", with an
absent identity treated as non-matching. -/
def netlistContains (l : List Cidr) (ip : Option IP) : Bool :=
  match ip with
  | none => false
  | some a => l.any (fun cd => cidrContains cd a)

/-- Model of Go net.SplitHostPort: strip one port suffix after the last
colon, with square-bracket quoting for IPv6 hosts; None is the error case
(no port, or too many colons). -/
def splitHostPort (s : String) : Option (String × String) :=
  match s.data with
  | '[' :: rest =>
      match splitChar ']' rest with
      | [h, colonPort] =>
          match colonPort with
          | ':' :: p =>
              if p.contains ':' || p.contains '[' || h.contains '[' then none
              else some (h.asString, p.asString)
          | _ => none
      | _ => none
  | cs =>
      match splitChar ':' cs with
      | [h, p] =>
          if h.contains '[' || h.contains ']' || p.contains '[' || p.contains ']' then none
          else some (h.asString, p.asString)
      | _ => none

/-- An inbound HTTP request as the pipeline sees it. headers models
r.Header.Get keyed by canonical header names (Get of a missing header is
the empty string). -/
structure Request where
  method : String
  contentLength : Int
  rawQuery : String
  host : String
  remoteAddr : String
  headers : String → String

/-- What a handler invocation does with a request. -/
inductive ServeOutcome where
  /-- The empty 200 answer to the liveness GET. -/
  | emptySuccess
  /-- http.Error with the given status code and message. -/
  | httpError (code : Nat) (msg : String)
  /-- A preflight answer produced by the external CORS collaborator. -/
  | corsPreflight
  /-- The request body was handed to the RPC dispatcher. -/
  | dispatched
deriving DecidableEq, Repr

/-- A handler: consumes a request, produces an outcome. -/
def Handler := Request → ServeOutcome

/-- The accepted media type (constant contentType in the source). -/
def contentType : String := "application/json"

/-- The request size cap (constant maxHTTPRequestContentLength). -/
def maxHTTPRequestContentLength : Int := 1024 * 128

/-- The tspecials of RFC 1521/2045 as listed in Go mime (grammar.go). -/
def isTSpecialChar (c : Char) : Bool :=
  "()<>@,;:\\\"/[]?=".data.contains c

/-- Token characters as accepted by Go mime: any printable US-ASCII
character except space and tspecials. -/
def isTokenChar (c : Char) : Bool :=
  decide (32 < c.toNat) && decide (c.toNat < 127) && !isTSpecialChar c

/-- Nonempty string of token characters. -/
def isToken (s : String) : Bool :=
  decide (s.data.length > 0) && s.data.all isTokenChar

/-- Model of Go mime checkMediaTypeDisposition: a token or a token/token
pair with nothing after it (a token never contains a slash, so splitting
on the slash is exact). -/
def checkMediaType (s : String) : Bool :=
  match splitStr s '/' with
  | [t] => isToken t
  | [t, sub] => isToken t && isToken sub
  | _ => false

/-- Model of Go mime consumeValue on a quoted string, after the opening
quote: Some of the rest after the closing quote, None on a bare CR/LF or a
missing closing quote. A backslash before a tspecial escapes it; any other
backslash is a literal character. -/
def mimeQuotedString : List Char → Option (List Char)
  | [] => none
  | [c] => if c == '"' then some [] else none
  | c :: c2 :: cs =>
      if c == '"' then some (c2 :: cs)
      else if c == (Char.ofNat 13) || c == (Char.ofNat 10) then none
      else if c == '\\' && isTSpecialChar c2 then mimeQuotedString cs
      else mimeQuotedString (c2 :: cs)

/-- Model of Go mime consumeValue restricted to success and the rest: a
nonempty token, or a quoted string; None when Go reports value "" with an
unmoved rest (the parse-failure test in consumeMediaParam). -/
def mimeConsumeValue : List Char → Option (List Char)
  | [] => none
  | c :: cs =>
      if c == '"' then mimeQuotedString cs
      else if isTokenChar c then some ((c :: cs).dropWhile isTokenChar)
      else none

/-- Model of Go mime consumeMediaParam restricted to the lower-cased key
and the rest: a semicolon, a nonempty token key, an equals sign and a
value, each with optional leading white space; None is Go's key == ""
failure return. -/
def mimeConsumeParam (v : List Char) : Option (String × List Char) :=
  match v.dropWhile Char.isWhitespace with
  | ';' :: r1 =>
      let r2 := r1.dropWhile Char.isWhitespace
      let param := r2.takeWhile isTokenChar
      if param.isEmpty then none
      else
        match (r2.dropWhile isTokenChar).dropWhile Char.isWhitespace with
        | '=' :: r5 =>
            match mimeConsumeValue (r5.dropWhile Char.isWhitespace) with
            | some r7 => some ((param.map lowerChar).asString, r7)
            | none => none
        | _ => none
  | _ => none

/-- Model of the parameter loop of Go mime.ParseMediaType: true exactly
when Go returns a nil error for the section after the media type. A
trailing semicolon is tolerated; a malformed parameter or a duplicated
(lower-cased) parameter name is an error. The fuel argument only bounds
the recursion; every iteration consumes at least the semicolon, so fuel
equal to the length of the input plus one never runs out. -/
def mimeParamsOK : Nat → List String → List Char → Bool
  | 0, _, _ => false
  | fuel + 1, seen, v =>
      let v1 := v.dropWhile Char.isWhitespace
      if v1.isEmpty then true
      else
        match mimeConsumeParam v1 with
        | some (key, rest) =>
            if seen.contains key then false
            else mimeParamsOK fuel (key :: seen) rest
        | none => trimChars v1 == [';']

/-- Model of Go mime.ParseMediaType restricted to what the source consumes
(the media type and whether err is nil): the part before the first
semicolon, trimmed and lower-cased, must pass checkMediaTypeDisposition,
and the parameter section after it must parse without error; None covers
both error returns. -/
def mime_ParseMediaType (v : String) : Option String :=
  let mediatype := lowerStr (trimStr (v.data.takeWhile (fun c => c != ';')).asString)
  if !checkMediaType mediatype then none
  else
    let rest := v.data.dropWhile (fun c => c != ';')
    if mimeParamsOK (rest.length + 1) [] rest then some mediatype else none

/-- validateRequest (http.go lines 89-103): None means the request is valid,
otherwise the HTTP status code and error message. -/
def validateRequest (r : Request) : Option (Nat × String) :=
  if r.method == "PUT" || r.method == "DELETE" then
    some (405, "method not allowed")
  else if r.contentLength > maxHTTPRequestContentLength then
    some (413, "content length too large (" ++ toString r.contentLength ++ ">"
      ++ toString maxHTTPRequestContentLength ++ ")")
  else
    let mt := mime_ParseMediaType (r.headers "Content-Type")
    if r.method != "OPTIONS" && mt != some contentType then
      some (415, "invalid content type, only " ++ contentType ++ " is supported")
    else none

/-- The base RPC server; reverseproxy only feeds the identity used in the
debug log line of ServeHTTP. -/
structure Server where
  reverseproxy : Bool

/-- Server.ServeHTTP (http.go lines 64-85): the liveness shortcut, then
validateRequest, then hand-off to the dispatcher. -/
def Server.ServeHTTP (srv : Server) (r : Request) : ServeOutcome :=
  if r.method == "GET" && r.contentLength == 0 && r.rawQuery == "" then
    ServeOutcome.emptySuccess
  else
    match validateRequest r with
    | some (code, msg) => ServeOutcome.httpError code msg
    | none => ServeOutcome.dispatched

/-- Model of the external rs/cors wrapper used when origins are configured:
a preflight OPTIONS request with an Origin is short-circuited, anything
else is delegated (response-header injection is not observable here). -/
def corsWrapper (allowedOrigins : List String) (next : Handler) : Handler :=
  fun r =>
    if r.method == "OPTIONS" && r.headers "Origin" != "" then
      ServeOutcome.corsPreflight
    else next r

/-- newCorsHandler (http.go lines 105-117): with no configured origins the
base server itself is returned. -/
def newCorsHandler (srv : Server) (allowedOrigins : List String) : Handler :=
  if allowedOrigins.length = 0 then srv.ServeHTTP
  else corsWrapper allowedOrigins srv.ServeHTTP

/-- virtualHostHandler.ServeHTTP (http.go lines 129-156); vhosts is the key
set of the handler's map. -/
def virtualHostHandler.ServeHTTP (vhosts : List String) (next : Handler) : Handler :=
  fun r =>
    if r.host == "" then next r
    else
      let host := match splitHostPort r.host with
        | some (h, _) => h
        | none => r.host
      if (parseIP host).isSome then next r
      else if vhosts.contains "*" then next r
      else if vhosts.contains host then next r
      else ServeOutcome.httpError 403 "invalid host specified"

/-- newVHostHandler (http.go lines 158-164): the whitelist entries are
lower-cased once at construction. -/
def newVHostHandler (vhosts : List String) (next : Handler) : Handler :=
  virtualHostHandler.ServeHTTP (vhosts.map lowerStr) next

/-- The right-to-left scan of one comma-separated header chain (the inner
loop of getIP), on the reversed entry list. -/
def scanRev : List String → Option IP
  | [] => none
  | e :: rest =>
      match parseIP (trimStr e) with
      | none => scanRev rest
      | some ip =>
          if !ip.isGlobalUnicast || netutil_IsLAN ip || netutil_IsSpecialNetwork ip
          then scanRev rest
          else parseIP (trimStr e)

/-- Scan a header chain from its rightmost entry leftwards. -/
def scanChain (entries : List String) : Option IP :=
  scanRev entries.reverse

/-- The transport-address fallback of getIP (http.go lines 195-200). -/
def remoteFallback (remoteAddr : String) : Option IP :=
  match splitHostPort remoteAddr with
  | some (h, _) => parseIP h
  | none => parseIP ((splitStr remoteAddr ':').headD "")

/-- getIP (http.go lines 173-201). -/
def getIP (r : Request) (reverseproxy : Bool) : Option IP :=
  if reverseproxy then
    match scanChain (splitStr (r.headers "X-Forwarded-For") ',') with
    | some ip => some ip
    | none =>
        match scanChain (splitStr (r.headers "X-Real-Ip") ',') with
        | some ip => some ip
        | none => remoteFallback r.remoteAddr
  else remoteFallback r.remoteAddr

/-- allowIPHandler.ServeHTTP (http.go lines 204-213). -/
def allowIPHandler.ServeHTTP (allowedIPs : List Cidr) (reverseproxy : Bool)
    (next : Handler) : Handler :=
  fun r =>
    if netlistContains allowedIPs (getIP r reverseproxy) then next r
    else ServeOutcome.httpError 403 ""

/-- newAllowIPHandler (http.go lines 215-221). -/
def newAllowIPHandler (allowIPmasks : List String) (behindreverseproxy : Bool)
    (next : Handler) : Handler :=
  allowIPHandler.ServeHTTP (mkNetlist allowIPmasks) behindreverseproxy next

/-- NewHTTPServer (http.go lines 55-61): cors handler innermost, then the
virtual-host gate, then the IP allow-list gate outermost. -/
def NewHTTPServer (cors vhosts allowIP : List String) (behindreverseproxy : Bool)
    (srv : Server) : Handler :=
  newAllowIPHandler allowIP behindreverseproxy
    (newVHostHandler vhosts (newCorsHandler srv cors))

/-- needle occurs contiguously inside hay. -/
def substrAt (needle hay : String) : Prop :=
  ∃ a b : List Char, hay.data = a ++ needle.data ++ b

/-- An entry of a forwarded-for chain that the scan accepts: it parses as
an IP after trimming, is global-unicast, and is neither LAN nor special. -/
def goodEntry (s : String) : Bool :=
  match parseIP (trimStr s) with
  | some ip => ip.isGlobalUnicast && !netutil_IsLAN ip && !netutil_IsSpecialNetwork ip
  | none => false

/-- Skipping prefix entries that the scan rejects. -/
theorem scanRev_skip (bad l : List String) (h : ∀ x ∈ bad, goodEntry x = false) :
    scanRev (bad ++ l) = scanRev l := by
  induction bad with
  | nil => rfl
  | cons e bad ih =>
      have he : goodEntry e = false := h e (List.mem_cons_self e bad)
      have hrest : ∀ x ∈ bad, goodEntry x = false := fun x hx => h x (List.mem_cons_of_mem e hx)
      unfold goodEntry at he
      rw [List.cons_append, scanRev]
      cases hp : parseIP (trimStr e) with
      | none => simp only [hp]; exact ih hrest
      | some ip =>
          rw [hp] at he
          simp only [hp]
          cases hgu : ip.isGlobalUnicast <;> cases hl : netutil_IsLAN ip
            <;> cases hs : netutil_IsSpecialNetwork ip <;> simp_all

/-- The scan stops at the first accepted entry. -/
theorem scanRev_hit (e : String) (l : List String) (he : goodEntry e = true) :
    scanRev (e :: l) = parseIP (trimStr e) := by
  unfold goodEntry at he
  rw [scanRev]
  cases hp : parseIP (trimStr e) with
  | none => rw [hp] at he; exact absurd he (by simp)
  | some ip =>
      rw [hp] at he
      simp only [hp]
      simp at he
      simp [he.1.1, he.1.2, he.2]

/-- C2: with reverse-proxy trust enabled, getIP scans the comma-separated
forwarded-for entries right to left and returns the first entry (that is,
the rightmost: every entry to its right fails the test) that parses as an
IP, is global-unicast, and is neither private/LAN nor reserved/special. -/
theorem getIP_scans_right_to_left (r : Request) (pre post : List String) (e : String)
    (hsplit : splitStr (r.headers "X-Forwarded-For") ',' = pre ++ e :: post)
    (he : goodEntry e = true)
    (hpost : ∀ x ∈ post, goodEntry x = false) :
    getIP r true = parseIP (trimStr e) := by
  obtain ⟨ip, hip⟩ : ∃ ip, parseIP (trimStr e) = some ip := by
    unfold goodEntry at he
    cases hp : parseIP (trimStr e) with
    | none => rw [hp] at he; exact absurd he (by simp)
    | some ip => exact ⟨ip, rfl⟩
  have hscan : scanChain (splitStr (r.headers "X-Forwarded-For") ',') = parseIP (trimStr e) := by
    rw [hsplit]
    unfold scanChain
    have hrev : (pre ++ e :: post).reverse = post.reverse ++ e :: pre.reverse := by simp
    rw [hrev, scanRev_skip post.reverse _ (fun x hx => hpost x (List.mem_reverse.mp hx)),
        scanRev_hit e _ he]
  unfold getIP
  rw [if_pos rfl, hscan, hip]

/-- The concrete forwarded-for chain of C2. -/
def c2req : Request :=
  { method := "POST", contentLength := 5, rawQuery := "", host := "",
    remoteAddr := "9.9.9.9:1234",
    headers := fun k =>
      if k == "X-Forwarded-For" then "10.0.0.5, 203.0.113.7, 10.0.0.1" else "" }

/-- C2 witness: on the chain "10.0.0.5, 203.0.113.7, 10.0.0.1" the resolver
returns 203.0.113.7, skipping the trailing private entry. -/
theorem getIP_scans_right_to_left_witness :
    getIP c2req true = some (IP.v4 203 0 113 7) :=
  (getIP_scans_right_to_left c2req ["10.0.0.5"] [" 10.0.0.1"] " 203.0.113.7"
    (by decide) (by decide) (by decide)).trans (by decide)

/-- C3: with reverse-proxy trust disabled, getIP depends only on the
transport-level remote address: two requests with the same remote address
and arbitrary different forwarding headers resolve identically, namely to
the parsed host portion of the remote address. -/
theorem getIP_no_trust_header_independent (r1 r2 : Request)
    (h : r1.remoteAddr = r2.remoteAddr) :
    getIP r1 false = getIP r2 false ∧ getIP r1 false = remoteFallback r1.remoteAddr := by
  refine ⟨?_, rfl⟩
  show remoteFallback r1.remoteAddr = remoteFallback r2.remoteAddr
  rw [h]

/-- First concrete request of the C3 witness: spoofed forwarding headers. -/
def c3reqA : Request :=
  { method := "POST", contentLength := 5, rawQuery := "", host := "",
    remoteAddr := "1.2.3.4:99",
    headers := fun k =>
      if k == "X-Forwarded-For" then "8.8.8.8" else
      if k == "X-Real-Ip" then "9.9.9.9" else "" }

/-- Second concrete request of the C3 witness: no headers at all. -/
def c3reqB : Request :=
  { method := "POST", contentLength := 5, rawQuery := "", host := "",
    remoteAddr := "1.2.3.4:99", headers := fun _ => "" }

/-- C3 witness: with trust disabled, spoofed forwarding headers do not
change the resolved identity. -/
theorem getIP_no_trust_header_independent_witness :
    getIP c3reqA false = getIP c3reqB false
      ∧ getIP c3reqA false = remoteFallback c3reqA.remoteAddr :=
  getIP_no_trust_header_independent c3reqA c3reqB rfl

/-- C4: the IP allow-list gate built from an empty pattern list rejects
every request with 403 and an empty message, never invoking the next
handler, whatever the resolved identity. -/
theorem newAllowIPHandler_empty_denies (brp : Bool) (next : Handler) (r : Request) :
    newAllowIPHandler [] brp next r = ServeOutcome.httpError 403 "" := by
  unfold newAllowIPHandler allowIPHandler.ServeHTTP
  cases h : getIP r brp <;> simp [netlistContains, mkNetlist, h]

/-- C5: the base RPC handler answers a GET request with zero declared
content length and empty query string with the empty success response,
neither validating nor dispatching it. -/
theorem serveHTTP_liveness_shortcut (srv : Server) (r : Request)
    (hm : r.method = "GET") (hc : r.contentLength = 0) (hq : r.rawQuery = "") :
    srv.ServeHTTP r = ServeOutcome.emptySuccess := by
  unfold Server.ServeHTTP
  rw [hm, hc, hq]
  rfl

/-- The concrete liveness probe of the C5 witness. -/
def c5req : Request :=
  { method := "GET", contentLength := 0, rawQuery := "", host := "",
    remoteAddr := "1.2.3.4:99", headers := fun _ => "" }

/-- C5 witness: a concrete empty GET probe gets the empty success answer. -/
theorem serveHTTP_liveness_shortcut_witness :
    Server.ServeHTTP ⟨false⟩ c5req = ServeOutcome.emptySuccess :=
  serveHTTP_liveness_shortcut ⟨false⟩ c5req rfl rfl rfl

/-- C1: evidence against case-insensitive host matching: with whitelist
["example.com"], the virtual-host gate rejects Host "EXAMPLE.com" with 403
while it delegates the identical request with Host "example.com". The
lookup compares the raw request host case-sensitively against the set that
was lower-cased at construction. -/
theorem vhost_case_mismatch_rejected :
    newVHostHandler ["example.com"] (fun _ => ServeOutcome.dispatched)
        { method := "POST", contentLength := 5, rawQuery := "", host := "EXAMPLE.com",
          remoteAddr := "192.168.1.9:40000", headers := fun _ => "" }
      = ServeOutcome.httpError 403 "invalid host specified"
    ∧ newVHostHandler ["example.com"] (fun _ => ServeOutcome.dispatched)
        { method := "POST", contentLength := 5, rawQuery := "", host := "example.com",
          remoteAddr := "192.168.1.9:40000", headers := fun _ => "" }
      = ServeOutcome.dispatched :=
  ⟨by decide, by decide⟩

/-- C6: past the method and size checks, a non-OPTIONS request is rejected
with 415 exactly when the content-type header fails to parse or its media
type is not application/json; an OPTIONS request is never rejected with
415. -/
theorem validateRequest_content_type_gate :
    (∀ r : Request, r.method ≠ "OPTIONS" → r.method ≠ "PUT" → r.method ≠ "DELETE" →
      r.contentLength ≤ maxHTTPRequestContentLength →
      ((∃ m, validateRequest r = some (415, m)) ↔
        (mime_ParseMediaType (r.headers "Content-Type") = none ∨
         mime_ParseMediaType (r.headers "Content-Type") ≠ some contentType)))
    ∧ (∀ r : Request, r.method = "OPTIONS" → ∀ m, validateRequest r ≠ some (415, m)) := by
  constructor
  · intro r hopt hput hdel hlen
    unfold validateRequest
    have h1 : (r.method == "PUT" || r.method == "DELETE") = false := by
      simp [hput, hdel]
    have h2 : ¬ (r.contentLength > maxHTTPRequestContentLength) := not_lt.mpr hlen
    rw [h1]
    simp only [Bool.false_eq_true, if_false, if_neg h2]
    have h3 : (r.method != "OPTIONS") = true := by simp [hopt]
    rw [h3]
    simp only [Bool.true_and]
    by_cases hmt : mime_ParseMediaType (r.headers "Content-Type") = some contentType
    · rw [hmt]
      simp
    · have h4 : (mime_ParseMediaType (r.headers "Content-Type") != some contentType) = true := by
        simp [hmt]
      rw [h4]
      simp [hmt]
  · intro r hopt m
    unfold validateRequest
    rw [hopt]
    rw [(by decide : (("OPTIONS" == "PUT" || "OPTIONS" == "DELETE") : Bool) = false)]
    by_cases hcl : r.contentLength > maxHTTPRequestContentLength
    · simp only [Bool.false_eq_true, if_false, if_pos hcl]
      intro hco
      simp at hco
    · simp only [Bool.false_eq_true, if_false, if_neg hcl]
      rw [(by decide : (("OPTIONS" != "OPTIONS") : Bool) = false)]
      simp

/-- The concrete POST of the C6 witness: valid length, wrong media type. -/
def c6post : Request :=
  { method := "POST", contentLength := 5, rawQuery := "", host := "",
    remoteAddr := "1.2.3.4:99",
    headers := fun k => if k == "Content-Type" then "text/plain" else "" }

/-- The concrete OPTIONS request of the C6 witness. -/
def c6options : Request :=
  { method := "OPTIONS", contentLength := 0, rawQuery := "", host := "",
    remoteAddr := "1.2.3.4:99",
    headers := fun k => if k == "Content-Type" then "text/plain" else "" }

/-- A POST whose content type has the accepted media type but a malformed
parameter section, which mime.ParseMediaType reports as an error. -/
def c6badparam : Request :=
  { method := "POST", contentLength := 5, rawQuery := "", host := "",
    remoteAddr := "1.2.3.4:99",
    headers := fun k => if k == "Content-Type" then "application/json; charset" else "" }

/-- C6 witness: a POST with Content-Type text/plain is rejected with 415,
as is a POST whose content-type header fails to parse because of a
malformed parameter section; an OPTIONS request is not. -/
theorem validateRequest_content_type_gate_witness :
    (∃ m, validateRequest c6post = some (415, m))
      ∧ (∃ m, validateRequest c6badparam = some (415, m))
      ∧ ∀ m, validateRequest c6options ≠ some (415, m) :=
  ⟨(validateRequest_content_type_gate.1 c6post (by decide) (by decide) (by decide)
      (by decide)).mpr (Or.inr (by decide)),
   (validateRequest_content_type_gate.1 c6badparam (by decide) (by decide) (by decide)
      (by decide)).mpr (Or.inl (by decide)),
   validateRequest_content_type_gate.2 c6options rfl⟩

/-- C7: past the method check, a declared content length above 131072 is
rejected with 413; the message carries the observed and the maximum size,
and the base handler stops with that error, never dispatching. -/
theorem validateRequest_payload_too_large (srv : Server) (r : Request)
    (hput : r.method ≠ "PUT") (hdel : r.method ≠ "DELETE")
    (hlen : r.contentLength > maxHTTPRequestContentLength) :
    ∃ m, validateRequest r = some (413, m)
      ∧ substrAt (toString r.contentLength) m
      ∧ substrAt "131072" m
      ∧ srv.ServeHTTP r = ServeOutcome.httpError 413 m := by
  have hlen2 : r.contentLength > (131072 : Int) := hlen
  have hne : r.contentLength ≠ 0 := by omega
  have hval : validateRequest r = some (413, "content length too large ("
      ++ toString r.contentLength ++ ">" ++ toString maxHTTPRequestContentLength ++ ")") := by
    unfold validateRequest
    have h1 : (r.method == "PUT" || r.method == "DELETE") = false := by
      simp [hput, hdel]
    rw [h1]
    simp only [Bool.false_eq_true, if_false, if_pos hlen]
  refine ⟨_, hval, ⟨"content length too large (".data,
      (">" ++ toString maxHTTPRequestContentLength ++ ")").data, by simp⟩, ?_, ?_⟩
  · rw [(by decide : (toString maxHTTPRequestContentLength) = "131072")]
    exact ⟨("content length too large (" ++ toString r.contentLength ++ ">").data,
      ")".data, by simp⟩
  · unfold Server.ServeHTTP
    have h2 : (r.method == "GET" && r.contentLength == 0 && r.rawQuery == "") = false := by
      simp [hne]
    rw [h2]
    simp only [Bool.false_eq_true, if_false, hval]

/-- The concrete oversized POST of the C7 witness. -/
def c7req : Request :=
  { method := "POST", contentLength := 200000, rawQuery := "", host := "",
    remoteAddr := "1.2.3.4:99",
    headers := fun k => if k == "Content-Type" then "application/json" else "" }

/-- C7 witness: a POST declaring 200000 bytes is rejected with 413 before
dispatch, with both sizes in the message. -/
theorem validateRequest_payload_too_large_witness :
    ∃ m, validateRequest c7req = some (413, m)
      ∧ substrAt (toString c7req.contentLength) m
      ∧ substrAt "131072" m
      ∧ Server.ServeHTTP ⟨false⟩ c7req = ServeOutcome.httpError 413 m :=
  validateRequest_payload_too_large ⟨false⟩ c7req (by decide) (by decide) (by decide)

/-- C8: validateRequest rejects with 405 exactly when the method is PUT or
DELETE; every other method passes the method check. -/
theorem validateRequest_method_gate (r : Request) :
    (∃ m, validateRequest r = some (405, m)) ↔ (r.method = "PUT" ∨ r.method = "DELETE") := by
  constructor
  · rintro ⟨m, hm⟩
    by_contra hne
    push_neg at hne
    have h1 : (r.method == "PUT" || r.method == "DELETE") = false := by
      simp [hne.1, hne.2]
    unfold validateRequest at hm
    rw [h1] at hm
    simp only [Bool.false_eq_true, if_false] at hm
    by_cases hcl : r.contentLength > maxHTTPRequestContentLength
    · rw [if_pos hcl] at hm
      simp at hm
    · rw [if_neg hcl] at hm
      by_cases hct : (r.method != "OPTIONS"
          && mime_ParseMediaType (r.headers "Content-Type") != some contentType) = true
      · rw [if_pos hct] at hm
        simp at hm
      · rw [if_neg hct] at hm
        simp at hm
  · rintro (h | h) <;>
      exact ⟨"method not allowed", by unfold validateRequest; rw [h]; rfl⟩

/-- C9: with an empty allowed-origin list, newCorsHandler returns the base
server itself, so composed behaviour is that of the base server invoked
directly. -/
theorem newCorsHandler_empty_passthrough (srv : Server) :
    newCorsHandler srv [] = srv.ServeHTTP
      ∧ ∀ r, newCorsHandler srv [] r = srv.ServeHTTP r :=
  ⟨rfl, fun _ => rfl⟩

/-- C10: in the composed server, the allow-list gate runs before the
liveness shortcut: an empty GET whose resolved identity is not in the
allow-list gets 403, not the empty success response. -/
theorem composed_liveness_blocked_by_allowlist
    (cors vhosts allowIP : List String) (brp : Bool) (srv : Server) (r : Request)
    (hm : r.method = "GET") (hc : r.contentLength = 0) (hq : r.rawQuery = "")
    (hdeny : netlistContains (mkNetlist allowIP) (getIP r brp) = false) :
    NewHTTPServer cors vhosts allowIP brp srv r = ServeOutcome.httpError 403 ""
      ∧ NewHTTPServer cors vhosts allowIP brp srv r ≠ ServeOutcome.emptySuccess := by
  have h : NewHTTPServer cors vhosts allowIP brp srv r = ServeOutcome.httpError 403 "" := by
    unfold NewHTTPServer newAllowIPHandler allowIPHandler.ServeHTTP
    rw [hdeny]
    simp
  exact ⟨h, by rw [h]; simp⟩

/-- The concrete empty GET probe of the C10 witness, from 1.2.3.4 against
an allow-list admitting only 10.0.0.0/8. -/
def c10req : Request :=
  { method := "GET", contentLength := 0, rawQuery := "", host := "",
    remoteAddr := "1.2.3.4:80", headers := fun _ => "" }

/-- C10 witness: the liveness probe from a non-allowed address gets 403. -/
theorem composed_liveness_blocked_by_allowlist_witness :
    NewHTTPServer [] [] ["10.0.0.0/8"] false ⟨false⟩ c10req = ServeOutcome.httpError 403 ""
      ∧ NewHTTPServer [] [] ["10.0.0.0/8"] false ⟨false⟩ c10req ≠ ServeOutcome.emptySuccess :=
  composed_liveness_blocked_by_allowlist [] [] ["10.0.0.0/8"] false ⟨false⟩ c10req
    rfl rfl rfl (by decide)
